import Mathlib

/-!
Shallow embedding of the Puppeteer n8n node
(src/nodes/Puppeteer/Puppeteer.node.ts with its declarative parameter schema
in Puppeteer.node.options.ts).

External effects (the puppeteer library, the sandboxed VM, HTTP calls) are
modelled as oracles: every fallible external call becomes an explicit
`Except` valued input, and the calls the node issues against the browser or
a page are recorded as explicit event traces, so that lifecycle claims
(exactly one teardown, page always closed, render attempted) are statements
about those traces.
-/

namespace PuppeteerNode

/-- Session data held in the workflow static slot
(interface PuppeteerSessionData, Puppeteer.node.ts lines 37 to 42). -/
structure PuppeteerSessionData where
  wsEndpoint : String
  pageId : String
  sessionId : String
  browserManagerUrl : String
  deriving Repr, DecidableEq

/-- Errors thrown by the node (NodeOperationError values in the source,
identified here by the site that throws them). -/
inductive ExecError where
  /-- runAction, line 54: persistent page id not found among browser pages. -/
  | pageNotFound (pageId : String)
  /-- runAction, line 75: custom script did not return an array of items. -/
  | invalidScriptReturn
  /-- any error thrown by the navigation, capture or script body;
  carries the message of the underlying error. -/
  | actionFailure (message : String)
  /-- execute, line 244: manual override with endpoint or page id missing. -/
  | incompleteManualOverride
  /-- execute, line 252: puppeteer.connect failed. -/
  | connectFailure (message : String)
  /-- execute, line 265: puppeteer.launch failed. -/
  | launchFailure (message : String)
  /-- execute, line 216: stopPersistentBrowser with no session resolvable. -/
  | noSessionToStop
  /-- execute, line 229: the stop HTTP call failed. -/
  | stopFailure (message : String)
  deriving Repr, DecidableEq

/-- One output record pushed into returnData: either a normal item or the
error record built at execute lines 278 to 281. -/
structure Item where
  json : List (String × String)
  deriving Repr, DecidableEq

/-- JavaScript object spread with override, modelling
`\x7b ...item.json, pageId: session.pageId \x7d`: an existing key is
overwritten in place, a new key is appended. -/
def objSet (kvs : List (String × String)) (k v : String) : List (String × String) :=
  if kvs.any (fun kv => kv.1 = k) then
    kvs.map (fun kv => if kv.1 = k then (k, v) else kv)
  else
    kvs ++ [(k, v)]

/-- Stamp the session page id onto an item (runAction lines 77 to 82 for the
script branch and lines 151 to 156 for the action branch). -/
def stampPageId (pid : String) (it : Item) : Item :=
  ⟨objSet it.json "pageId" pid⟩

/-- Value produced by the sandboxed script: the source only distinguishes
whether Array.isArray holds (runAction line 74). -/
inductive ScriptValue where
  | array (items : List Item)
  | nonArray
  deriving Repr

/-- The four operations handled by the action path of execute. -/
inductive Operation where
  | runCustomScript
  | getPageContent
  | getScreenshot
  | getPDF
  deriving Repr, DecidableEq

/-! ### PDF options assembly (runAction lines 121 to 148) -/

/-- Raw configuration read by the getPDF branch via getNodeParameter.
String parameters default to the empty string when not configured, which is
exactly the JavaScript-falsy case the source tests with `!`. -/
structure PdfParams where
  pageRanges : String
  displayHeaderFooter : Bool
  omitBackground : Bool
  printBackground : Bool
  landscape : Bool
  preferCSSPageSize : Bool
  scale : Rat
  margin : List (String × String)
  headerTemplate : String
  footerTemplate : String
  height : String
  width : String
  format : String
  fileName : String
  deriving Repr, DecidableEq

/-- The options object handed to page.pdf. Optional fields are the ones the
source only sets conditionally. -/
structure PDFOptions where
  pageRanges : String
  displayHeaderFooter : Bool
  omitBackground : Bool
  printBackground : Bool
  landscape : Bool
  preferCSSPageSize : Bool
  scale : Rat
  margin : List (String × String)
  headerTemplate : Option String := none
  footerTemplate : Option String := none
  height : Option String := none
  width : Option String := none
  format : Option String := none
  path : Option String := none
  deriving Repr, DecidableEq

/-- Build the page.pdf options exactly as runAction lines 124 to 145 do:
header and footer templates only when displayHeaderFooter; when CSS page
size is not preferred, height and width are taken from the parameters and,
when either is falsy (empty), the format parameter is assigned as fallback;
a truthy fileName becomes the output path. No validation is performed. -/
def buildPdfOptions (p : PdfParams) : PDFOptions :=
  let o : PDFOptions :=
    { pageRanges := p.pageRanges
      displayHeaderFooter := p.displayHeaderFooter
      omitBackground := p.omitBackground
      printBackground := p.printBackground
      landscape := p.landscape
      preferCSSPageSize := p.preferCSSPageSize
      scale := p.scale
      margin := p.margin }
  let o :=
    if p.displayHeaderFooter then
      { o with headerTemplate := some p.headerTemplate, footerTemplate := some p.footerTemplate }
    else o
  let o :=
    if p.preferCSSPageSize then o
    else
      let o := { o with height := some p.height, width := some p.width }
      if p.height = "" ∨ p.width = "" then { o with format := some p.format } else o
  if p.fileName = "" then o else { o with path := some p.fileName }

/-- Observable step of the getPDF branch. -/
inductive PdfEvent where
  /-- page.pdf was invoked with these options (runAction line 146). -/
  | render (opts : PDFOptions)
  deriving Repr, DecidableEq

/-- The getPDF branch after navigation (runAction lines 121 to 148): it is
straight-line code that assembles the options and invokes page.pdf; the
source contains no validation or rejection between the two. -/
def getPDFBranch (p : PdfParams) : Except ExecError (List PdfEvent) :=
  .ok [PdfEvent.render (buildPdfOptions p)]

/-! ### runAction (lines 44 to 164): page lifecycle, script contract -/

/-- Page-level events issued by one runAction call in non-session mode. -/
inductive PageEvent where
  | newPage
  | closePage
  deriving Repr, DecidableEq

/-- Per-item inputs of runAction together with the oracles for its external
calls: the outcome of vm.run for the script branch, the outcome of the
navigate-and-capture body for the action branches, the outcome of
browser.newPage, the target ids of browser.pages, and whether the page is
still open when the finally block runs (page.isClosed negated). -/
structure RunInput where
  operation : Operation
  scriptOutcome : Except ExecError ScriptValue
  actionOutcome : Except ExecError (List Item)
  newPageResult : Except ExecError Unit
  browserPages : List String
  pageStillOpenAtEnd : Bool

/-- The try body of runAction (lines 61 to 158): the script branch checks
Array.isArray and stamps the session page id; the action branches return
the capture result, stamped likewise when a session is present. -/
def runBody (session : Option PuppeteerSessionData) (inp : RunInput) :
    Except ExecError (List Item) :=
  match inp.operation with
  | .runCustomScript =>
    match inp.scriptOutcome with
    | .error e => .error e
    | .ok .nonArray => .error .invalidScriptReturn
    | .ok (.array items) =>
      match session with
      | some s => .ok (items.map (stampPageId s.pageId))
      | none => .ok items
  | _ =>
    match inp.actionOutcome with
    | .error e => .error e
    | .ok rs =>
      match session with
      | some s => .ok (rs.map (stampPageId s.pageId))
      | none => .ok rs

/-- runAction (lines 44 to 164). In session mode the page is looked up by
target id and never closed here; otherwise a fresh page is created before
the body runs and the finally block (lines 159 to 163) closes it when it is
still open, on the success and on the failure path alike. A failing
browser.newPage happens before the try block, so no close event follows it. -/
def runAction (session : Option PuppeteerSessionData) (inp : RunInput) :
    Except ExecError (List Item) × List PageEvent :=
  match session with
  | some s =>
    if inp.browserPages.contains s.pageId then
      (runBody (some s) inp, [])
    else
      (.error (.pageNotFound s.pageId), [])
  | none =>
    match inp.newPageResult with
    | .error e => (.error e, [])
    | .ok _ =>
      (runBody none inp,
       PageEvent.newPage :: (if inp.pageStillOpenAtEnd then [PageEvent.closePage] else []))

/-! ### The batch loop (execute lines 270 to 287) -/

/-- One entry of returnData: items pushed from runAction results, or the
error record of lines 278 to 281 carrying the error and the item index. -/
inductive OutRecord where
  | item (it : Item)
  | errorRecord (err : ExecError) (pairedItem : Nat)
  deriving Repr, DecidableEq

/-- The per-item loop of execute (lines 272 to 287): on a failing item,
with continueOnFail an error record paired to that index is emitted and
iteration proceeds; without it the error is rethrown, discarding the rest. -/
def runLoop (session : Option PuppeteerSessionData) (continueOnFail : Bool)
    (inputs : List RunInput) (i : Nat) : Except ExecError (List OutRecord) :=
  match inputs with
  | [] => .ok []
  | inp :: rest =>
    match (runAction session inp).1 with
    | .ok results =>
      match runLoop session continueOnFail rest (i + 1) with
      | .ok tail => .ok (results.map OutRecord.item ++ tail)
      | .error e => .error e
    | .error e =>
      if continueOnFail then
        match runLoop session continueOnFail rest (i + 1) with
        | .ok tail => .ok (OutRecord.errorRecord e i :: tail)
        | .error e2 => .error e2
      else .error e

/-! ### Browser resolution (execute lines 233 to 267) -/

/-- The recommended container launch arguments (lines 28 to 33). -/
def CONTAINER_LAUNCH_ARGS : List String :=
  ["--no-sandbox", "--disable-setuid-sandbox", "--disable-dev-shm-usage", "--disable-gpu"]

/-- Launch argument assembly (lines 255 to 259): the user arguments, plus,
when addContainerArgs is set, those container arguments not already present,
appended in their canonical order. -/
def computeLaunchArgs (userArgs : List String) (addContainerArgs : Bool) : List String :=
  if addContainerArgs then
    userArgs ++ CONTAINER_LAUNCH_ARGS.filter (fun arg => ! userArgs.contains arg)
  else userArgs

/-- The headless launch option: `options.headless === false` gives false,
anything else gives the string value "new" (line 261). -/
inductive HeadlessMode where
  | newMode
  | disabled
  deriving Repr, DecidableEq

/-- The options collection read at execute line 238, restricted to the
fields the browser-resolution code consults. Absent string options are the
empty string, matching the JavaScript-falsy test in the source. -/
structure ExecOptions where
  manualSessionOverride : Bool
  manualWsEndpoint : String
  manualPageId : String
  userLaunchArgs : List String
  addContainerArgs : Bool
  headless : Bool
  executablePath : String
  deriving Repr, DecidableEq

/-- How the browser handle is obtained. -/
inductive BrowserMode where
  | connected (wsEndpoint : String)
  | launched (headless : HeadlessMode) (args : List String) (executablePath : String)
  deriving Repr, DecidableEq

/-- Result of browser resolution: the session value in scope for the rest of
execute, the isManualSession flag, and the acquisition mode. -/
structure Resolution where
  session : Option PuppeteerSessionData
  isManualSession : Bool
  mode : BrowserMode
  deriving Repr, DecidableEq

/-- Browser resolution (execute lines 235 to 267): an ambient session is
connected to as is; otherwise a well-formed manual override (both endpoint
and page id truthy, line 244) yields a synthetic connected session with the
sentinel session id, and an incomplete one throws; otherwise a browser is
launched with the assembled arguments. -/
def resolveBrowser (ambient : Option PuppeteerSessionData) (o : ExecOptions) :
    Except ExecError Resolution :=
  match ambient with
  | some s => .ok ⟨some s, false, .connected s.wsEndpoint⟩
  | none =>
    if o.manualSessionOverride then
      if o.manualWsEndpoint = "" ∨ o.manualPageId = "" then
        .error .incompleteManualOverride
      else
        .ok ⟨some ⟨o.manualWsEndpoint, o.manualPageId, "manual-override", ""⟩, true,
             .connected o.manualWsEndpoint⟩
    else
      .ok ⟨none, false,
           .launched (if o.headless then .newMode else .disabled)
             (computeLaunchArgs o.userLaunchArgs o.addContainerArgs) o.executablePath⟩

/-! ### The whole action path of execute, with its teardown -/

/-- Browser-level calls issued by execute. -/
inductive BrowserEvent where
  | connect (wsEndpoint : String)
  | launch (headless : HeadlessMode) (args : List String) (executablePath : String)
  | disconnect
  | close
  deriving Repr, DecidableEq

/-- The acquisition call corresponding to a resolution mode. -/
def acquireEvent : BrowserMode → BrowserEvent
  | .connected ws => .connect ws
  | .launched h args ep => .launch h args ep

/-- The teardown call chosen at execute lines 288 to 298: a session handle,
manual or not, is disconnected; a launched handle is closed. -/
def teardownEvent (session : Option PuppeteerSessionData) (isManualSession : Bool) :
    BrowserEvent :=
  match session, isManualSession with
  | some _, false => .disconnect
  | some _, true => .disconnect
  | none, _ => .close

/-- JavaScript try-finally composition: when the finally block itself throws,
its error supersedes whatever the body was propagating; when it completes
normally, the body outcome stands. -/
def finishBatch (body : Except ExecError (List OutRecord))
    (td : Except ExecError Unit) : Except ExecError (List OutRecord) :=
  match td with
  | .ok _ => body
  | .error e => .error e

/-- Batch-level oracles: the per-item inputs, the continue-on-fail policy of
the invocation context, and the outcomes of puppeteer.connect,
puppeteer.launch and of the teardown call itself. -/
structure ExecInput where
  items : List RunInput
  continueOnFail : Bool
  connectResult : Except String Unit
  launchResult : Except String Unit
  teardownResult : Except ExecError Unit

/-- Outcome of the action path of execute: the node result, the trace of
browser-level calls, and the workflow static slot as left behind. -/
structure ExecOutcome where
  result : Except ExecError (List OutRecord)
  events : List BrowserEvent
  finalSlot : Option PuppeteerSessionData

/-- The action path of execute (lines 233 to 301): resolve the browser,
acquire it (connect for a session handle, launch otherwise; an acquisition
failure aborts before the try block, so no teardown follows it), run the
per-item loop, and tear the handle down exactly once in the finally block.
The action path never writes the workflow static slot, so the slot is
returned unchanged. -/
def executeAction (ambient : Option PuppeteerSessionData) (o : ExecOptions)
    (inp : ExecInput) : ExecOutcome :=
  match resolveBrowser ambient o with
  | .error e => ⟨.error e, [], ambient⟩
  | .ok res =>
    match res.mode with
    | .connected ws =>
      match inp.connectResult with
      | .error msg => ⟨.error (.connectFailure msg), [.connect ws], ambient⟩
      | .ok _ =>
        ⟨finishBatch (runLoop res.session inp.continueOnFail inp.items 0) inp.teardownResult,
         [.connect ws, teardownEvent res.session res.isManualSession], ambient⟩
    | .launched h args ep =>
      match inp.launchResult with
      | .error msg => ⟨.error (.launchFailure msg), [.launch h args ep], ambient⟩
      | .ok _ =>
        ⟨finishBatch (runLoop res.session inp.continueOnFail inp.items 0) inp.teardownResult,
         [.launch h args ep, teardownEvent res.session res.isManualSession], ambient⟩

/-! ### stopPersistentBrowser (execute lines 207 to 231) -/

/-- The workflow static data, reduced to its single puppeteer slot. -/
structure StaticData where
  puppeteerSession : Option PuppeteerSessionData
  deriving Repr, DecidableEq

/-- Fallback parameters of the stop operation; unset means empty string. -/
structure StopParams where
  stopSessionId : String
  stopBrowserManagerUrl : String
  deriving Repr, DecidableEq

/-- The stopPersistentBrowser branch (lines 207 to 231): the session id and
manager url come from the ambient slot when present, else from the fallback
parameters; a falsy value in either fails with the no-session error; then the
stop HTTP call (oracle) is issued, a failure is rethrown wrapped and leaves
the slot untouched, and on success the slot is deleted only when the ambient
session was the source. Returns the node outcome and the static data left
behind. -/
def stopPersistent (sd : StaticData) (p : StopParams) (stopCall : Except String Unit) :
    Except ExecError (List OutRecord) × StaticData :=
  let session := sd.puppeteerSession
  let sessionId := match session with | some s => s.sessionId | none => p.stopSessionId
  let browserManagerUrl :=
    match session with | some s => s.browserManagerUrl | none => p.stopBrowserManagerUrl
  if sessionId = "" ∨ browserManagerUrl = "" then
    (.error .noSessionToStop, sd)
  else
    match stopCall with
    | .ok _ =>
      (.ok [OutRecord.item ⟨[("message", "Session stopped.")]⟩],
       if session.isSome then ⟨none⟩ else sd)
    | .error msg => (.error (.stopFailure msg), sd)

/-! ### Event counters used by the lifecycle claims -/

/-- Number of close calls in a browser event trace. -/
def countClose : List BrowserEvent → Nat
  | [] => 0
  | .close :: es => countClose es + 1
  | _ :: es => countClose es

/-- Number of disconnect calls in a browser event trace. -/
def countDisconnect : List BrowserEvent → Nat
  | [] => 0
  | .disconnect :: es => countDisconnect es + 1
  | _ :: es => countDisconnect es

/-- Number of launch calls in a browser event trace. -/
def countLaunch : List BrowserEvent → Nat
  | [] => 0
  | .launch _ _ _ :: es => countLaunch es + 1
  | _ :: es => countLaunch es

/-- Number of closePage calls in a page event trace. -/
def countClosePage : List PageEvent → Nat
  | [] => 0
  | .closePage :: es => countClosePage es + 1
  | _ :: es => countClosePage es

/-- The acquisition call of the resolved mode succeeded (the hypothesis under
which the try-finally block of execute is entered at all). -/
def acquireOk (res : Resolution) (inp : ExecInput) : Prop :=
  match res.mode with
  | .connected _ => inp.connectResult = .ok ()
  | .launched _ _ _ => inp.launchResult = .ok ()

/-! ### Concrete inputs used to evaluate the development -/

/-- A session descriptor as the manager would return it. -/
def sampleSession : PuppeteerSessionData :=
  ⟨"ws://x", "p1", "abc", "http://manager"⟩

/-- Options with no manual override and no extra launch configuration. -/
def launchedOptions : ExecOptions := ⟨false, "", "", [], false, true, ""⟩

/-- Options with a well-formed manual override. -/
def manualOptions : ExecOptions := ⟨true, "ws://manual", "pm", [], false, true, ""⟩

/-- Options with the manual override flag set but the page id missing. -/
def manualMissingOptions : ExecOptions := ⟨true, "ws://manual", "", [], false, true, ""⟩

/-- An item whose action body succeeds with one content record. -/
def okItem : RunInput :=
  ⟨.getPageContent, .ok .nonArray, .ok [⟨[("body", "ok")]⟩], .ok (), [], true⟩

/-- An item whose action body throws with message boom. -/
def failingItem : RunInput :=
  ⟨.getPageContent, .ok .nonArray, .error (.actionFailure "boom"), .ok (), [], true⟩

/-- A script item whose sandboxed script produced a non-array value. -/
def scriptBadItem : RunInput :=
  ⟨.runCustomScript, .ok .nonArray, .ok [], .ok (), [], true⟩

/-- A batch with one succeeding item and every external call succeeding. -/
def simpleExecInput : ExecInput := ⟨[okItem], false, .ok (), .ok (), .ok ()⟩

/-- A batch whose only item fails and whose teardown call itself throws. -/
def maskingInput : ExecInput :=
  ⟨[failingItem], false, .ok (), .ok (), .error (.actionFailure "teardown failure")⟩

/-! ### Shared helper lemmas -/

/-- Boolean membership test agrees with list membership for strings. -/
theorem contains_iff_mem (l : List String) (a : String) :
    l.contains a = true ↔ a ∈ l := by
  induction l with
  | nil => simp [List.contains, List.elem]
  | cons b t ih =>
    by_cases hab : b = a
    · subst hab; simp [List.contains, List.elem]
    · simp only [List.contains, List.elem] at *
      have : (a == b) = false := by
        simp [beq_iff_eq]
        exact fun h => hab h.symm
      rw [this]
      simpa [ih] using fun h => (hab h.symm).elim

/-- Under a successful resolution and acquisition, the browser call trace of
the action path is the acquisition call followed by the teardown call. -/
theorem executeAction_events_eq (ambient : Option PuppeteerSessionData)
    (o : ExecOptions) (inp : ExecInput) (res : Resolution)
    (hres : resolveBrowser ambient o = .ok res) (hacq : acquireOk res inp) :
    (executeAction ambient o inp).events =
      [acquireEvent res.mode, teardownEvent res.session res.isManualSession] := by
  cases hm : res.mode with
  | connected ws =>
    simp only [acquireOk, hm] at hacq
    simp [executeAction, hres, hm, hacq, acquireEvent]
  | launched h args ep =>
    simp only [acquireOk, hm] at hacq
    simp [executeAction, hres, hm, hacq, acquireEvent]

/-- Under a successful resolution and acquisition, the result of the action
path is the loop result composed with the teardown outcome by the
try-finally rule. -/
theorem executeAction_result_eq (ambient : Option PuppeteerSessionData)
    (o : ExecOptions) (inp : ExecInput) (res : Resolution)
    (hres : resolveBrowser ambient o = .ok res) (hacq : acquireOk res inp) :
    (executeAction ambient o inp).result =
      finishBatch (runLoop res.session inp.continueOnFail inp.items 0)
        inp.teardownResult := by
  cases hm : res.mode with
  | connected ws =>
    simp only [acquireOk, hm] at hacq
    simp [executeAction, hres, hm, hacq]
  | launched h args ep =>
    simp only [acquireOk, hm] at hacq
    simp [executeAction, hres, hm, hacq]

/-- The action path of execute never writes the workflow static slot. -/
theorem executeAction_slot (ambient : Option PuppeteerSessionData)
    (o : ExecOptions) (inp : ExecInput) :
    (executeAction ambient o inp).finalSlot = ambient := by
  unfold executeAction
  cases hres : resolveBrowser ambient o with
  | error e => rfl
  | ok res =>
    cases hm : res.mode with
    | connected ws => cases hc : inp.connectResult <;> simp [hm, hc]
    | launched h args ep => cases hc : inp.launchResult <;> simp [hm, hc]

/-! ### Claim theorems -/

/-- C2 counterexample input: preferCSSPageSize is false, neither width nor
height is configured, and the format parameter resolves to nothing. -/
def noSizePdfParams : PdfParams :=
  ⟨"", false, false, false, true, false, 1, [], "", "", "", "", "", ""⟩

/-- C2 (counterexample): at an input with preferCSSPageSize false, no width,
no height and no resolvable paper format, the getPDF branch does not fail at
all: it proceeds to the render call, passing the empty format through, so no
RenderOptionsInvalid error is raised before page.pdf. -/
theorem pdfNoValidationCounterexample :
    getPDFBranch noSizePdfParams = .ok [PdfEvent.render (buildPdfOptions noSizePdfParams)] ∧
    (buildPdfOptions noSizePdfParams).format = some "" ∧
    (buildPdfOptions noSizePdfParams).height = some "" ∧
    (buildPdfOptions noSizePdfParams).width = some "" :=
  ⟨rfl, rfl, rfl, rfl⟩

/-- C2 (amended): for every getPDF invocation with preferCSSPageSize false
where width or height is missing, the branch assigns the configured format
parameter as fallback, performs no validation, and always proceeds to the
render call; no failure happens before page.pdf is invoked. -/
theorem pdfFormatFallback (p : PdfParams)
    (hcss : p.preferCSSPageSize = false)
    (hsize : p.height = "" ∨ p.width = "") :
    (buildPdfOptions p).height = some p.height ∧
    (buildPdfOptions p).width = some p.width ∧
    (buildPdfOptions p).format = some p.format ∧
    getPDFBranch p = .ok [PdfEvent.render (buildPdfOptions p)] := by
  refine ⟨?_, ?_, ?_, rfl⟩ <;>
  · simp only [buildPdfOptions, hcss, Bool.false_eq_true, if_false, if_pos hsize]
    cases hd : p.displayHeaderFooter <;> by_cases hf : p.fileName = "" <;> simp [hf]

/-- C2 witness: the amended claim evaluated at the concrete no-size input. -/
theorem pdfFormatFallbackWitness :
    (buildPdfOptions noSizePdfParams).format = some "" ∧
    getPDFBranch noSizePdfParams = .ok [PdfEvent.render (buildPdfOptions noSizePdfParams)] := by
  have h := pdfFormatFallback noSizePdfParams rfl (Or.inl rfl)
  exact ⟨h.2.2.1, h.2.2.2⟩

/-- C4: whenever the sandboxed script produces a value that is not an array,
runAction fails with the invalid-script-return error, in session mode (page
found) and in non-session mode alike, and never returns a list of items, not
even a partial one. -/
theorem scriptNonArrayRejected (session : Option PuppeteerSessionData) (inp : RunInput)
    (hop : inp.operation = .runCustomScript)
    (hscript : inp.scriptOutcome = .ok .nonArray) :
    (∀ s : PuppeteerSessionData, session = some s →
        inp.browserPages.contains s.pageId = true →
        (runAction session inp).1 = .error .invalidScriptReturn) ∧
    (session = none → inp.newPageResult = .ok () →
        (runAction session inp).1 = .error .invalidScriptReturn) ∧
    (∀ items : List Item, (runAction session inp).1 ≠ .ok items) := by
  have hbody : runBody session inp = .error .invalidScriptReturn := by
    simp [runBody, hop, hscript]
  refine ⟨?_, ?_, ?_⟩
  · intro s hs hfound
    subst hs
    have hm : s.pageId ∈ inp.browserPages := (contains_iff_mem _ _).mp hfound
    simp [runAction, hm, hbody]
  · intro hs hnp
    subst hs
    simp [runAction, hnp, hbody]
  · intro items
    cases session with
    | some s =>
      by_cases hm : s.pageId ∈ inp.browserPages
      · simp [runAction, hm, hbody]
      · simp [runAction, hm]
    | none =>
      cases hnp : inp.newPageResult with
      | error e => simp [runAction, hnp]
      | ok u => simp [runAction, hnp, hbody]

/-- C4 witness: a concrete non-session script invocation with a non-array
script value fails with the invalid-script-return error. -/
theorem scriptNonArrayRejectedWitness :
    (runAction none scriptBadItem).1 = .error .invalidScriptReturn :=
  (scriptNonArrayRejected none scriptBadItem rfl rfl).2.1 rfl rfl

/-- C10: in non-session mode, whenever browser.newPage succeeds, runAction
creates the fresh page before any operation work and its cleanup step closes
it exactly when it is still open at the end, independently of whether the
body succeeded or failed: the page trace is newPage followed by closePage
when the page is still open, for every operation and every body outcome. -/
theorem pageLifecycleNonSession (inp : RunInput) (h : inp.newPageResult = .ok ()) :
    (runAction none inp).2 =
      PageEvent.newPage ::
        (if inp.pageStillOpenAtEnd then [PageEvent.closePage] else []) ∧
    (runAction none inp).2.head? = some PageEvent.newPage ∧
    (inp.pageStillOpenAtEnd = true → countClosePage (runAction none inp).2 = 1) ∧
    (inp.pageStillOpenAtEnd = false → countClosePage (runAction none inp).2 = 0) := by
  cases hp : inp.pageStillOpenAtEnd <;>
    simp [runAction, h, hp, countClosePage]

/-- C10 witness: the concrete succeeding non-session item creates its page
and closes it. -/
theorem pageLifecycleNonSessionWitness :
    (runAction none okItem).2 = [PageEvent.newPage, PageEvent.closePage] :=
  (pageLifecycleNonSession okItem rfl).1

/-- C8 (counterexample): when the user already supplies a duplicated
recommended argument, the assembled launch argument list keeps the duplicate,
so it does not contain each container argument exactly once. -/
theorem containerArgsDupCounterexample :
    computeLaunchArgs ["--no-sandbox", "--no-sandbox"] true =
      ["--no-sandbox", "--no-sandbox", "--disable-setuid-sandbox",
       "--disable-dev-shm-usage", "--disable-gpu"] ∧
    (computeLaunchArgs ["--no-sandbox", "--no-sandbox"] true).count "--no-sandbox" = 2 := by
  constructor <;> rfl

/-- C8 (amended): when the container flag is set and the user-supplied
argument list is itself free of duplicates, the assembled list contains each
of the four recommended container arguments exactly once, contains no
duplicates at all, and starts with the user-supplied arguments unchanged and
in order; the injection only ever appends container arguments that are not
already present. -/
theorem containerArgsInjection (userArgs : List String) (hnd : userArgs.Nodup) :
    (computeLaunchArgs userArgs true).Nodup ∧
    (∀ a ∈ CONTAINER_LAUNCH_ARGS, (computeLaunchArgs userArgs true).count a = 1) ∧
    ∃ extra, computeLaunchArgs userArgs true = userArgs ++ extra := by
  have hc : CONTAINER_LAUNCH_ARGS.Nodup := by decide
  have hfilter : (CONTAINER_LAUNCH_ARGS.filter
      (fun arg => ! userArgs.contains arg)).Nodup := hc.filter _
  refine ⟨?_, ?_, ⟨_, rfl⟩⟩
  · refine List.Nodup.append hnd hfilter ?_
    intro a ha hmem
    rw [List.mem_filter] at hmem
    have hcontains : userArgs.contains a = false := by
      cases hco : userArgs.contains a with
      | false => rfl
      | true => rw [hco] at hmem; exact absurd hmem.2 (by decide)
    rw [← Bool.not_eq_true, contains_iff_mem] at hcontains
    exact hcontains ha
  · intro a ha
    show (userArgs ++ CONTAINER_LAUNCH_ARGS.filter
        (fun arg => ! userArgs.contains arg)).count a = 1
    rw [List.count_append]
    by_cases hmem : a ∈ userArgs
    · have h1 : userArgs.count a = 1 := List.count_eq_one_of_mem hnd hmem
      have h2 : (CONTAINER_LAUNCH_ARGS.filter
          (fun arg => ! userArgs.contains arg)).count a = 0 := by
        rw [List.count_eq_zero]
        intro hin
        rw [List.mem_filter] at hin
        rw [Bool.not_eq_true', ← Bool.not_eq_true, contains_iff_mem] at hin
        exact absurd hmem hin.2
      rw [h1, h2]
    · have h1 : userArgs.count a = 0 := List.count_eq_zero.mpr hmem
      have h2 : (CONTAINER_LAUNCH_ARGS.filter
          (fun arg => ! userArgs.contains arg)).count a = 1 := by
        refine List.count_eq_one_of_mem hfilter ?_
        rw [List.mem_filter]
        refine ⟨ha, ?_⟩
        rw [Bool.not_eq_true', ← Bool.not_eq_true, contains_iff_mem]
        exact hmem
      rw [h1, h2]

/-- C8 witness: the amended claim evaluated on a duplicate-free user list
that already contains one recommended argument. -/
theorem containerArgsInjectionWitness :
    List.Nodup ["--proxy", "--no-sandbox"] ∧
    (computeLaunchArgs ["--proxy", "--no-sandbox"] true).count "--no-sandbox" = 1 ∧
    (computeLaunchArgs ["--proxy", "--no-sandbox"] true).Nodup :=
  ⟨by decide,
   (containerArgsInjection ["--proxy", "--no-sandbox"] (by decide)).2.1
     "--no-sandbox" (by decide),
   (containerArgsInjection ["--proxy", "--no-sandbox"] (by decide)).1⟩

/-- C1: for every batch invocation whose browser resolution and acquisition
succeeded, the event trace of execute contains exactly one teardown of the
browser handle, whatever the items, their failures and the
continue-on-failure policy did: with no session (launched handle) exactly
one close and no disconnect, with a session (ambient or manual, connected
handle) exactly one disconnect and no close. -/
theorem teardownExactlyOnce (ambient : Option PuppeteerSessionData)
    (o : ExecOptions) (inp : ExecInput) (res : Resolution)
    (hres : resolveBrowser ambient o = .ok res) (hacq : acquireOk res inp) :
    (res.session = none →
       countClose (executeAction ambient o inp).events = 1 ∧
       countDisconnect (executeAction ambient o inp).events = 0) ∧
    (∀ s : PuppeteerSessionData, res.session = some s →
       countDisconnect (executeAction ambient o inp).events = 1 ∧
       countClose (executeAction ambient o inp).events = 0) := by
  have hev := executeAction_events_eq ambient o inp res hres hacq
  constructor
  · intro hs
    rw [hev, hs]
    cases res.mode <;> simp [countClose, countDisconnect, teardownEvent, acquireEvent]
  · intro s hs
    rw [hev, hs]
    cases res.isManualSession <;> cases res.mode <;>
      simp [countClose, countDisconnect, teardownEvent, acquireEvent]

/-- C1 witness: a concrete launched batch closes the browser exactly once and
never disconnects it. -/
theorem teardownExactlyOnceWitness :
    countClose (executeAction none launchedOptions simpleExecInput).events = 1 ∧
    countDisconnect (executeAction none launchedOptions simpleExecInput).events = 0 :=
  (teardownExactlyOnce none launchedOptions simpleExecInput
      ⟨none, false, .launched .newMode [] ""⟩ rfl rfl).1 rfl

/-- C3: whenever an ambient session descriptor exists, the resolver picks the
connected mode towards exactly that descriptor with its websocket endpoint,
and the browser event trace of the whole action path contains no launch
call, whatever the remaining configuration, the manual-override flag
included. -/
theorem ambientSessionConnects (d : PuppeteerSessionData) (o : ExecOptions)
    (inp : ExecInput) :
    resolveBrowser (some d) o = .ok ⟨some d, false, .connected d.wsEndpoint⟩ ∧
    countLaunch (executeAction (some d) o inp).events = 0 := by
  refine ⟨rfl, ?_⟩
  cases hc : inp.connectResult <;>
    simp [executeAction, resolveBrowser, hc, countLaunch, teardownEvent]

/-- C5: in the per-item loop, an item whose runAction call fails contributes,
under the continue-on-failure policy, exactly one error record carrying the
error and that item index, after which iteration continues with the
remaining items; without the policy the loop result is that error, whatever
the remaining items would have produced. -/
theorem continueOnFailIsolation (session : Option PuppeteerSessionData)
    (inp : RunInput) (rest : List RunInput) (i : Nat) (e : ExecError)
    (herr : (runAction session inp).1 = .error e) :
    (runLoop session true (inp :: rest) i =
       match runLoop session true rest (i + 1) with
       | .ok tail => .ok (OutRecord.errorRecord e i :: tail)
       | .error e2 => .error e2) ∧
    runLoop session false (inp :: rest) i = .error e := by
  constructor <;> simp [runLoop, herr]

/-- C5 witness: a concrete failing item under each policy. -/
theorem continueOnFailIsolationWitness :
    (runLoop none true [failingItem, okItem] 1 =
       match runLoop none true [okItem] 2 with
       | .ok tail => .ok (OutRecord.errorRecord (.actionFailure "boom") 1 :: tail)
       | .error e2 => .error e2) ∧
    runLoop none false [failingItem, okItem] 1 = .error (.actionFailure "boom") :=
  continueOnFailIsolation none failingItem [okItem] 1 (.actionFailure "boom") rfl

/-- C6: with no ambient session and the manual override flag set, a missing
websocket endpoint or a missing page id always fails with the
incomplete-override error, whichever is missing; with both supplied the
resolver yields the connected mode with the synthetic descriptor whose
session id is the manual-override sentinel, and the workflow static slot is
left untouched by the whole action path, so the synthetic descriptor is
never persisted. -/
theorem manualOverrideContract (o : ExecOptions) (inp : ExecInput)
    (hov : o.manualSessionOverride = true) :
    ((o.manualWsEndpoint = "" ∨ o.manualPageId = "") →
        resolveBrowser none o = .error .incompleteManualOverride) ∧
    (o.manualWsEndpoint ≠ "" → o.manualPageId ≠ "" →
        resolveBrowser none o =
          .ok ⟨some ⟨o.manualWsEndpoint, o.manualPageId, "manual-override", ""⟩, true,
               .connected o.manualWsEndpoint⟩ ∧
        (executeAction none o inp).finalSlot = none) := by
  constructor
  · intro hmiss
    simp [resolveBrowser, hov, hmiss]
  · intro hws hpid
    refine ⟨?_, executeAction_slot none o inp⟩
    have hmiss : ¬(o.manualWsEndpoint = "" ∨ o.manualPageId = "") := by
      rintro (h | h)
      · exact hws h
      · exact hpid h
    simp [resolveBrowser, hov, hmiss]

/-- C6 witness: the contract evaluated with only the page id missing and with
both fields supplied. -/
theorem manualOverrideContractWitness :
    resolveBrowser none manualMissingOptions = .error .incompleteManualOverride ∧
    resolveBrowser none manualOptions =
      .ok ⟨some ⟨"ws://manual", "pm", "manual-override", ""⟩, true,
           .connected "ws://manual"⟩ ∧
    (executeAction none manualOptions simpleExecInput).finalSlot = none := by
  refine ⟨?_, ?_⟩
  · exact (manualOverrideContract manualMissingOptions simpleExecInput rfl).1 (Or.inr rfl)
  · exact (manualOverrideContract manualOptions simpleExecInput rfl).2
      (by decide) (by decide)

/-- C7: the stopPersistentBrowser branch fails with the no-session error when
no ambient descriptor exists and the fallback fields do not resolve; a
failing stop call always leaves the static slot unchanged; the slot is
cleared exactly on a successful stop call whose source was the ambient
descriptor; and when the fallback parameters were the source the slot is
never modified at all. -/
theorem stopPersistentContract (sd : StaticData) (p : StopParams)
    (stopCall : Except String Unit) :
    (sd.puppeteerSession = none →
       (p.stopSessionId = "" ∨ p.stopBrowserManagerUrl = "") →
       stopPersistent sd p stopCall = (.error .noSessionToStop, sd)) ∧
    (∀ msg, stopCall = .error msg → (stopPersistent sd p stopCall).2 = sd) ∧
    (∀ s : PuppeteerSessionData, sd.puppeteerSession = some s →
       s.sessionId ≠ "" → s.browserManagerUrl ≠ "" → stopCall = .ok () →
       (stopPersistent sd p stopCall).2 = ⟨none⟩) ∧
    (sd.puppeteerSession = none → (stopPersistent sd p stopCall).2 = sd) := by
  refine ⟨?_, ?_, ?_, ?_⟩
  · intro hs hmiss
    simp only [stopPersistent, hs]
    rcases hmiss with h | h <;> simp [h]
  · intro msg hcall
    simp only [stopPersistent, hcall]
    cases sd.puppeteerSession <;> split <;> rfl
  · intro s hs hsid hurl hcall
    have hguard : ¬(s.sessionId = "" ∨ s.browserManagerUrl = "") := by
      rintro (h | h)
      · exact hsid h
      · exact hurl h
    simp [stopPersistent, hs, hguard, hcall]
  · intro hs
    simp only [stopPersistent, hs]
    cases stopCall <;> split <;> rfl

/-- C7 witness: the contract evaluated on an empty slot with empty fallbacks
and on a populated slot with a successful stop call. -/
theorem stopPersistentContractWitness :
    stopPersistent ⟨none⟩ ⟨"", ""⟩ (.ok ()) = (.error .noSessionToStop, ⟨none⟩) ∧
    (stopPersistent ⟨some sampleSession⟩ ⟨"", ""⟩ (.ok ())).2 = ⟨none⟩ := by
  refine ⟨?_, ?_⟩
  · exact (stopPersistentContract ⟨none⟩ ⟨"", ""⟩ (.ok ())).1 rfl (Or.inl rfl)
  · exact (stopPersistentContract ⟨some sampleSession⟩ ⟨"", ""⟩ (.ok ())).2.2.1
      sampleSession rfl (by decide) (by decide) rfl

/-- C9 (counterexample): in a concrete batch whose only item fails with one
error while the teardown call itself throws another, the error reaching the
caller is the teardown error, not the in-flight item error: the finally
block of execute offers no protection against masking. -/
theorem teardownMaskingCounterexample :
    runLoop none false [failingItem] 0 = .error (.actionFailure "boom") ∧
    (executeAction none launchedOptions maskingInput).result =
      .error (.actionFailure "teardown failure") ∧
    ExecError.actionFailure "teardown failure" ≠ ExecError.actionFailure "boom" := by
  refine ⟨rfl, rfl, by decide⟩

/-- C9 (amended): the teardown call is attempted unconditionally, but its own
failure supersedes an already propagating error from the main body, as the
try-finally rule dictates: when the loop fails and teardown succeeds the
loop error reaches the caller, and when teardown also throws it is the
teardown error that reaches the caller instead. -/
theorem teardownErrorSupersedes (ambient : Option PuppeteerSessionData)
    (o : ExecOptions) (inp : ExecInput) (res : Resolution) (e1 : ExecError)
    (hres : resolveBrowser ambient o = .ok res) (hacq : acquireOk res inp)
    (hbody : runLoop res.session inp.continueOnFail inp.items 0 = .error e1) :
    (inp.teardownResult = .ok () →
       (executeAction ambient o inp).result = .error e1) ∧
    (∀ e2, inp.teardownResult = .error e2 →
       (executeAction ambient o inp).result = .error e2) := by
  have hr := executeAction_result_eq ambient o inp res hres hacq
  constructor
  · intro htd
    rw [hr, htd, hbody]
    rfl
  · intro e2 htd
    rw [hr, htd]
    rfl

/-- C9 witness: the amended claim evaluated on the concrete masking batch. -/
theorem teardownErrorSupersedesWitness :
    (executeAction none launchedOptions maskingInput).result =
      .error (.actionFailure "teardown failure") :=
  (teardownErrorSupersedes none launchedOptions maskingInput
      ⟨none, false, .launched .newMode [] ""⟩ (.actionFailure "boom") rfl rfl rfl).2
    (.actionFailure "teardown failure") rfl

end PuppeteerNode
